import Mathlib

/-!
Verification of the ad-campaign creation pipeline of this repository:
a shallow embedding of `src/main.py` (the "Create Campaign on Meta" flow),
`src/ads_api/meta_ads.py` (the ads-platform client), `src/ads_api/utils.py`
(the targeting formatter) and `src/llm_handler.py` (content validation).

Python runtime values are modelled by the inductive type `Py`; exceptions by
`PyError` together with `Except`.  Each HTTP call is mediated by an oracle
(`Request → HttpOutcome` for the POST endpoints, a direct `HttpOutcome` for
the GET helpers), so every client function is a pure function of its inputs
and of the oracle's answers, returning the list of requests it issued
together with its result.
-/

namespace AdsPipeline

/-- Model of a Python runtime value (the subset the sources manipulate). -/
inductive Py where
  | pnone
  | pbool (b : Bool)
  | pint (n : Int)
  | pstr (s : String)
  | plist (xs : List Py)
  | pdict (kvs : List (String × Py))
deriving Repr

/-- Model of the Python exceptions the sources can raise. -/
inductive PyError where
  /-- `raise Exception(msg)` -/
  | exception (msg : String)
  /-- `raise ValueError(msg)` -/
  | valueError (msg : String)
  /-- e.g. calling `.get` on a `str` object. -/
  | attributeError
  /-- a local variable referenced before assignment. -/
  | unboundLocal
  /-- e.g. `len()` of an unsized object. -/
  | typeError
  /-- `response.json()` on a body that is not valid JSON. -/
  | jsonDecodeError
deriving Repr, DecidableEq

/-- Association lookup with string keys: the model of reading a Python dict
(first matching key; dict keys are unique). -/
def assocFind {α : Type} : List (String × α) → String → Option α
  | [], _ => none
  | (k', v) :: rest, k => if k' = k then some v else assocFind rest k

/-- `d[k]` / `d.get(k, default)` field access on a `Py` dict value. -/
def Py.lookupKey : Py → String → Option Py
  | .pdict kvs, k => assocFind kvs k
  | _, _ => none

/-- Python's `d.get(key, default)` method: succeeds on dicts, raises
`AttributeError` on any other receiver (e.g. a `str`). -/
def pyDictGet (v : Py) (key : String) (default : Py) : Except PyError Py :=
  match v with
  | .pdict kvs => .ok ((assocFind kvs key).getD default)
  | _ => .error .attributeError

/-- Python truthiness of a value (`if not page_id: ...`). -/
def Py.truthy : Py → Bool
  | .pnone => false
  | .pbool b => b
  | .pint n => !(n == 0)
  | .pstr s => !(s == "")
  | .plist xs => !xs.isEmpty
  | .pdict kvs => !kvs.isEmpty

mutual
/-- Python `repr()` of a value (string escaping elided). -/
def Py.reprStr : Py → String
  | .pnone => "None"
  | .pbool b => if b then "True" else "False"
  | .pint n => toString n
  | .pstr s => "'" ++ s ++ "'"
  | .plist xs => "[" ++ Py.reprList xs ++ "]"
  | .pdict kvs => "\x7b" ++ Py.reprDict kvs ++ "\x7d"

def Py.reprList : List Py → String
  | [] => ""
  | [x] => Py.reprStr x
  | x :: xs => Py.reprStr x ++ ", " ++ Py.reprList xs

def Py.reprDict : List (String × Py) → String
  | [] => ""
  | [(k, v)] => "'" ++ k ++ "': " ++ Py.reprStr v
  | (k, v) :: kvs => "'" ++ k ++ "': " ++ Py.reprStr v ++ ", " ++ Py.reprDict kvs
end

/-- Python `str()` of a value, as used by f-string interpolation. -/
def Py.fstr : Py → String
  | .pnone => "None"
  | .pbool b => if b then "True" else "False"
  | .pint n => toString n
  | .pstr s => s
  | .plist xs => "[" ++ Py.reprList xs ++ "]"
  | .pdict kvs => "\x7b" ++ Py.reprDict kvs ++ "\x7d"

/-- Python `int()` applied to a number: truncation toward zero. -/
def pyInt (q : ℚ) : Int := if 0 ≤ q then q.floor else -((-q).floor)

/-- Python `len()` of a value; raises `TypeError` on unsized objects. -/
def pyLen : Py → Except PyError Int
  | .pstr s => .ok s.length
  | .plist xs => .ok xs.length
  | .pdict kvs => .ok kvs.length
  | _ => .error .typeError

/-! ## HTTP model

`src/ads_api/meta_ads.py` issues each call as a single synchronous request.
The environment's behaviour is an oracle.  An outcome is either a 2xx
response with a parsed JSON body, a response on which `raise_for_status`
raised (status ≥ 400) together with `str(e)`, the parsed JSON body
(`none` when the body is not valid JSON) and the raw `response.text`, or a
transport failure in which `requests.post`/`requests.get` itself raised and
no `response` local was ever assigned. -/

/-- Outcome of one HTTP call, from the calling code's point of view. -/
inductive HttpOutcome where
  /-- 2xx response whose body parses as JSON. -/
  | ok (body : Py)
  /-- Response with status ≥ 400: `raise_for_status` raised an `HTTPError`
  `e` with `str(e) = excText`; `response.json()` yields `jsonBody`
  (`none` = not valid JSON) and `response.text = rawText`. -/
  | httpError (status : Nat) (excText : String) (jsonBody : Option Py) (rawText : String)
  /-- The request call itself raised a `RequestException` (e.g. a
  connection error); the `response` local was never assigned. -/
  | raised (excText : String)
deriving Repr

/-- Did the platform accept the write? -/
def HttpOutcome.succeeded : HttpOutcome → Bool
  | .ok _ => true
  | _ => false

/-- The four POST endpoints of the creation chain. -/
inductive Endpoint where
  | campaigns
  | adsets
  | adcreatives
  | ads
deriving Repr, DecidableEq

/-- One POST request: endpoint, path account id, `access_token` query
parameter and JSON body. -/
structure Request where
  endpoint : Endpoint
  accountId : String
  token : String
  body : Py
deriving Repr

/-- Placeholder request used only as the default of `List.getD`. -/
def dummyRequest : Request := ⟨.campaigns, "", "", .pnone⟩

/-! ## The ads-platform client (`src/ads_api/meta_ads.py`)

Every creator shares this verbatim `except` handler (with its operation
name substituted):

```
except requests.exceptions.RequestException as e:
    error_msg = f"Failed to ... - \x7bresponse.json().get('error', 'Unknown Error').get('error_user_msg', '')\x7d\n\nError Detail:\n\x7bstr(e)\x7d"
    if hasattr(e, "response") and e.response:
        error_msg += f" - \x7be.response.text\x7d"
    raise Exception(error_msg)
```

Note three behaviours of this handler, modelled faithfully below:
* when the JSON body has no `"error"` key, `.get('error', 'Unknown Error')`
  returns the *string* `'Unknown Error'`, and the chained
  `.get('error_user_msg', '')` raises `AttributeError`;
* `bool(e.response)` is `response.ok`, i.e. `status_code < 400`, which is
  false exactly when `raise_for_status` raised, so the raw-body append
  never fires on the HTTP-error path;
* on a transport failure the `response` local was never assigned, so
  `response.json()` raises `UnboundLocalError` inside the handler. -/

/-- The shared `except requests.exceptions.RequestException` handler, run
with a response present (status ≥ 400). -/
def exceptHandler (opFailed : String) (status : Nat) (excText : String)
    (jsonBody : Option Py) (rawText : String) : PyError :=
  match jsonBody with
  | none => .jsonDecodeError
  | some v =>
    match pyDictGet v "error" (.pstr "Unknown Error") with
    | .error e => e
    | .ok errObj =>
      match pyDictGet errObj "error_user_msg" (.pstr "") with
      | .error e => e
      | .ok userMsg =>
        let errorMsg := opFailed ++ " - " ++ userMsg.fstr ++ "\n\nError Detail:\n" ++ excText
        let errorMsg := if status < 400 then errorMsg ++ " - " ++ rawText else errorMsg
        .exception errorMsg

/-- The shared `try: post; raise_for_status; return response.json().get("id")`
body of the four creator functions. -/
def postCall (oracle : Request → HttpOutcome) (opFailed : String) (req : Request) :
    Except PyError Py :=
  match oracle req with
  | .ok body => pyDictGet body "id" .pnone
  | .httpError status excText jsonBody rawText =>
      .error (exceptHandler opFailed status excText jsonBody rawText)
  | .raised _ => .error .unboundLocal

/-- `check_api_access`: probes `GET /me`.  On a caught `RequestException`
the handler reads `response.status_code`, which raises `UnboundLocalError`
when the request itself failed and no response was ever assigned. -/
def check_api_access (outcome : HttpOutcome) : Except PyError (Bool × String) :=
  match outcome with
  | .ok userData =>
    match pyDictGet userData "name" (.pstr "Unknown") with
    | .error e => .error e
    | .ok nameVal => .ok (true, "Connected as " ++ nameVal.fstr)
  | .httpError status excText _ _ =>
    if status = 401 then .ok (false, "Invalid access token")
    else .ok (false, "API connection error: " ++ excText)
  | .raised _ => .error .unboundLocal

/-- The objective translation table of `create_campaign`. -/
def objective_mapping : List (String × String) :=
  [("AWARENESS", "BRAND_AWARENESS"),
   ("CONSIDERATION", "OUTCOME_TRAFFIC"),
   ("CONVERSIONS", "CONVERSIONS")]

/-- The request `create_campaign` builds and posts. -/
def campaignRequest (access_token ad_account_id name objective status : String) : Request :=
  let meta_objective := (assocFind objective_mapping objective).getD "OUTCOME_TRAFFIC"
  ⟨.campaigns, ad_account_id, access_token,
    .pdict [("name", .pstr name), ("objective", .pstr meta_objective),
      ("status", .pstr status), ("special_ad_categories", .plist [])]⟩

/-- `create_campaign`: returns the requests it issued and its result. -/
def create_campaign (oracle : Request → HttpOutcome)
    (access_token ad_account_id name objective status : String) :
    List Request × Except PyError Py :=
  let req := campaignRequest access_token ad_account_id name objective status
  ([req], postCall oracle "Failed to create campaign" req)

/-- The request `create_ad_set` builds and posts.  `now` is `int(time.time())`
at the moment of the call; the budget is `int(daily_budget * 100)`
(arithmetic modelled over exact rationals, see `pyInt`). -/
def adSetRequest (access_token ad_account_id name : String) (campaign_id : Py)
    (daily_budget : ℚ) (targeting : Py) (status : String) (now : Int) : Request :=
  let budget_in_cents := pyInt (daily_budget * 100)
  let optimization_goal := "LINK_CLICKS"
  let billing_event := "IMPRESSIONS"
  let start_time := now
  let end_time := start_time + (30 * 24 * 60 * 60)
  ⟨.adsets, ad_account_id, access_token,
    .pdict [("name", .pstr name), ("campaign_id", campaign_id),
      ("daily_budget", .pint budget_in_cents),
      ("optimization_goal", .pstr optimization_goal),
      ("billing_event", .pstr billing_event),
      ("bid_strategy", .pstr "LOWEST_COST_WITHOUT_CAP"),
      ("status", .pstr status), ("targeting", targeting),
      ("start_time", .pint start_time), ("end_time", .pint end_time)]⟩

/-- `create_ad_set`. -/
def create_ad_set (oracle : Request → HttpOutcome)
    (access_token ad_account_id name : String) (campaign_id : Py)
    (daily_budget : ℚ) (targeting : Py) (status : String) (now : Int) :
    List Request × Except PyError Py :=
  let req := adSetRequest access_token ad_account_id name campaign_id
    daily_budget targeting status now
  ([req], postCall oracle "Failed to create ad set" req)

/-- The request `create_ad_creative` builds once the page-id check passed.
The source also extracts `image_url` from `creative_data` but never uses
it: the body carries a hardcoded placeholder `image_hash`. -/
def creativeRequest (access_token ad_account_id : String)
    (creative_data : List (String × Py)) : Request :=
  let title := (assocFind creative_data "title").getD (.pstr "")
  let body := (assocFind creative_data "body").getD (.pstr "")
  let description := (assocFind creative_data "description").getD (.pstr "")
  let website_url := (assocFind creative_data "website_url").getD (.pstr "")
  let call_to_action := (assocFind creative_data "call_to_action").getD (.pstr "LEARN_MORE")
  let page_id := (assocFind creative_data "page_id").getD (.pstr "")
  ⟨.adcreatives, ad_account_id, access_token,
    .pdict [("name", .pstr ("Creative for " ++ title.fstr)),
      ("object_story_spec", .pdict [("page_id", page_id),
        ("link_data", .pdict [("message", body), ("link", website_url),
          ("name", title), ("description", description),
          ("call_to_action", .pdict [("type", call_to_action)]),
          ("image_hash", .pstr "4098e58bb25e54ff17283d7bf4f44fd6")])])]⟩

/-- `create_ad_creative`: raises `ValueError` before any request when the
page id is falsy, else posts the creative. -/
def create_ad_creative (oracle : Request → HttpOutcome)
    (access_token ad_account_id : String) (creative_data : List (String × Py)) :
    List Request × Except PyError Py :=
  let page_id := (assocFind creative_data "page_id").getD (.pstr "")
  if !page_id.truthy then
    ([], .error (.valueError "Facebook Page ID is required to create an ad creative"))
  else
    let req := creativeRequest access_token ad_account_id creative_data
    ([req], postCall oracle "Failed to create ad creative" req)

/-- The ad request `create_ad` posts after the creative succeeded. -/
def adRequest (access_token ad_account_id name : String) (ad_set_id creative_id : Py)
    (status : String) : Request :=
  ⟨.ads, ad_account_id, access_token,
    .pdict [("name", .pstr name), ("adset_id", ad_set_id),
      ("creative", .pdict [("creative_id", creative_id)]),
      ("status", .pstr status)]⟩

/-- `create_ad`: first invokes `create_ad_creative`, then posts the ad
referencing the returned creative id.  No compensating request of any kind
is issued when the ad post fails. -/
def create_ad (oracle : Request → HttpOutcome)
    (access_token ad_account_id name : String) (ad_set_id : Py)
    (creative_data : List (String × Py)) (status : String) :
    List Request × Except PyError Py :=
  match create_ad_creative oracle access_token ad_account_id creative_data with
  | (ctrace, .error e) => (ctrace, .error e)
  | (ctrace, .ok creative_id) =>
    let req := adRequest access_token ad_account_id name ad_set_id creative_id status
    (ctrace ++ [req], postCall oracle "Failed to create ad" req)

/-- `get_campaign_details`: `GET /{campaign_id}`; returns the parsed body,
with the same failure handler as the writes. -/
def get_campaign_details (outcome : HttpOutcome) : Except PyError Py :=
  match outcome with
  | .ok body => .ok body
  | .httpError status excText jsonBody rawText =>
      .error (exceptHandler "Failed to get campaign details" status excText jsonBody rawText)
  | .raised _ => .error .unboundLocal

/-! ## Content validation (`src/llm_handler.py`) -/

/-- The `required_fields` list of `validate_content`. -/
def required_fields : List String :=
  ["headline", "primary_text", "description", "image_description"]

/-- The `for field in required_fields` loop of `validate_content`. -/
def validateFields (content : List (String × Py)) : List String → Except PyError Unit
  | [] => .ok ()
  | f :: rest =>
    if (assocFind content f).isNone then
      .error (.valueError ("Generated content is missing required field: " ++ f))
    else validateFields content rest

/-- `validate_content`: raises `ValueError` on the first required field not
present in the mapping; a pure, local check involving no request. -/
def validate_content (content : List (String × Py)) : Except PyError Unit :=
  validateFields content required_fields

/-! ## Targeting formatter (`src/ads_api/utils.py`) -/

/-- `all(len(loc) == 2 for loc in locations)`: short-circuits at the first
entry whose length differs from 2; `len` of an unsized entry raises. -/
def allLenTwo : List Py → Except PyError Bool
  | [] => .ok true
  | x :: xs =>
    match pyLen x with
    | .error e => .error e
    | .ok n => if n = 2 then allLenTwo xs else .ok false

/-- Tuple unpacking `interest_id, interest_name = item` of one element of
the interests list. -/
def unpackPair : Py → Except PyError (Py × Py)
  | .plist [a, b] => .ok (a, b)
  | .plist _ => .error (.valueError "not enough values to unpack")
  | .pstr s =>
    match s.data with
    | [c₁, c₂] => .ok (.pstr (String.mk [c₁]), .pstr (String.mk [c₂]))
    | _ => .error (.valueError "not enough values to unpack")
  | _ => .error .typeError

/-- The interests comprehension
`[ \x7b"id": i, "name": n\x7d for i, n in interests ]`. -/
def mapInterests : List Py → Except PyError (List Py)
  | [] => .ok []
  | x :: xs =>
    match unpackPair x with
    | .error e => .error e
    | .ok (i, n) =>
      match mapInterests xs with
      | .error e => .error e
      | .ok rest => .ok (.pdict [("id", i), ("name", n)] :: rest)

/-- The trailing interests block of `format_targeting_spec`: runs the
comprehension only when the key is present and holds a list. -/
def withInterests (targeting_data spec : List (String × Py)) :
    Except PyError (List (String × Py)) :=
  match assocFind targeting_data "interests" with
  | some (.plist xs) =>
    match mapInterests xs with
    | .error e => .error e
    | .ok objs => .ok (spec ++ [("interests", .plist objs)])
  | some _ => .ok spec
  | none => .ok spec

/-- The age and gender assignments of `format_targeting_spec` (the
`targeting_spec` dict as it stands just before the location block). -/
def ageGenderSpec (targeting_data : List (String × Py)) : List (String × Py) :=
  let spec0 : List (String × Py) := []
  let spec1 := match assocFind targeting_data "age_min" with
    | some v => spec0 ++ [("age_min", v)]
    | none => spec0
  let spec2 := match assocFind targeting_data "age_max" with
    | some v => spec1 ++ [("age_max", v)]
    | none => spec1
  match assocFind targeting_data "genders" with
  | some (.plist gs) => if gs.length > 0 then spec2 ++ [("genders", .plist gs)] else spec2
  | some _ => spec2
  | none => spec2

/-- `format_targeting_spec`: the pure transform from a loosely-shaped
targeting dict to the spec dict, assigning keys in source order
(age_min, age_max, genders, geo_locations, interests). -/
def format_targeting_spec (targeting_data : List (String × Py)) :
    Except PyError (List (String × Py)) :=
  let spec3 := ageGenderSpec targeting_data
  match assocFind targeting_data "geo_locations" with
  | some v => withInterests targeting_data (spec3 ++ [("geo_locations", v)])
  | none =>
    match assocFind targeting_data "locations" with
    | some (.plist locs) =>
      if locs.length > 0 then
        match allLenTwo locs with
        | .error e => .error e
        | .ok b =>
          withInterests targeting_data (spec3 ++ [("geo_locations",
            .pdict [("countries", if b then .plist locs else .plist []),
              ("cities", .plist []), ("regions", .plist [])])])
      else withInterests targeting_data spec3
    | some _ => withInterests targeting_data spec3
    | none => withInterests targeting_data spec3

/-! ## The campaign pipeline (`src/main.py`, "Create Campaign on Meta")

The flow runs with the account id already resolved and, per the guards in
the button handler, a non-empty access token and Facebook page id.  It
invokes `create_campaign`, then `create_ad_set` threading the returned
campaign id, then the composite `create_ad` threading the returned ad-set
id, each with status `"PAUSED"` hardcoded at the call site; the first
raised exception aborts the flow (caught by the enclosing `except`, which
surfaces it as the failure message). -/

/-- The four generated-content fields as the UI reads them. -/
structure GeneratedContent where
  headline : String
  primary_text : String
  description : String
  image_description : String
deriving Repr

/-- The `st.session_state.campaign_details` fields the flow consumes. -/
structure CampaignDetails where
  campaign_name : String
  campaign_objective : String
  daily_budget : ℚ
  website_url : String
  call_to_action : String
  age_min : Int
  age_max : Int
  /-- first selected gender, `"ALL"` by default -/
  genders : String
  /-- ISO-2 country codes -/
  locations : List String
deriving Repr

/-- Everything one pipeline run reads. -/
structure PipelineInput where
  access_token : String
  page_id : String
  ad_account_id : String
  details : CampaignDetails
  content : GeneratedContent
  /-- `int(time.time())` observed inside `create_ad_set` -/
  now : Int
deriving Repr

/-- The inline targeting dict built at the `create_ad_set` call site. -/
def pipelineTargeting (d : CampaignDetails) : Py :=
  .pdict [("age_min", .pint d.age_min), ("age_max", .pint d.age_max),
    ("genders", .plist (if d.genders = "MALE" then [.pint 1]
      else if d.genders = "FEMALE" then [.pint 2] else [])),
    ("geo_locations", .pdict [("countries", .plist (d.locations.map Py.pstr))])]

/-- The inline `creative_data` dict built at the `create_ad` call site. -/
def pipelineCreativeData (inp : PipelineInput) : List (String × Py) :=
  [("title", .pstr inp.content.headline),
   ("body", .pstr inp.content.primary_text),
   ("description", .pstr inp.content.description),
   ("image_url", .pstr "https://placehold.co/600x400"),
   ("website_url", .pstr inp.details.website_url),
   ("call_to_action", .pstr inp.details.call_to_action),
   ("page_id", .pstr inp.page_id)]

/-- Identifiers stored in session state after a successful run. -/
structure PipelineResult where
  campaign_id : Py
  ad_set_id : Py
  ad_id : Py
deriving Repr

/-- The sequential creation flow: the requests issued, in order, and
either the three created identifiers or the first raised error. -/
def runPipeline (oracle : Request → HttpOutcome) (inp : PipelineInput) :
    List Request × Except PyError PipelineResult :=
  match create_campaign oracle inp.access_token inp.ad_account_id
      inp.details.campaign_name inp.details.campaign_objective "PAUSED" with
  | (t₁, .error e) => (t₁, .error e)
  | (t₁, .ok campaign_id) =>
    match create_ad_set oracle inp.access_token inp.ad_account_id
        (inp.details.campaign_name ++ " - Ad Set") campaign_id
        inp.details.daily_budget (pipelineTargeting inp.details) "PAUSED" inp.now with
    | (t₂, .error e) => (t₁ ++ t₂, .error e)
    | (t₂, .ok ad_set_id) =>
      match create_ad oracle inp.access_token inp.ad_account_id
          (inp.details.campaign_name ++ " - Ad") ad_set_id
          (pipelineCreativeData inp) "PAUSED" with
      | (t₃, .error e) => (t₁ ++ t₂ ++ t₃, .error e)
      | (t₃, .ok ad_id) => (t₁ ++ t₂ ++ t₃, .ok ⟨campaign_id, ad_set_id, ad_id⟩)

/-! ## Derived notions used by the statements -/

mutual
/-- Structural equality of `Py` values (Python `==` on these shapes). -/
def Py.beq : Py → Py → Bool
  | .pnone, .pnone => true
  | .pbool a, .pbool b => a == b
  | .pint a, .pint b => a == b
  | .pstr a, .pstr b => a == b
  | .plist xs, .plist ys => Py.beqList xs ys
  | .pdict xs, .pdict ys => Py.beqDict xs ys
  | _, _ => false

def Py.beqList : List Py → List Py → Bool
  | [], [] => true
  | x :: xs, y :: ys => Py.beq x y && Py.beqList xs ys
  | _, _ => false

def Py.beqDict : List (String × Py) → List (String × Py) → Bool
  | [], [] => true
  | (k₁, v₁) :: xs, (k₂, v₂) :: ys => k₁ == k₂ && Py.beq v₁ v₂ && Py.beqDict xs ys
  | _, _ => false
end

mutual
/-- Does `needle` occur anywhere inside the value (as the value itself, a
list element, or a dict value, recursively)? -/
def Py.containsVal (needle : Py) : Py → Bool
  | .plist xs => Py.beq (.plist xs) needle || Py.containsValList needle xs
  | .pdict kvs => Py.beq (.pdict kvs) needle || Py.containsValDict needle kvs
  | v => Py.beq v needle

def Py.containsValList (needle : Py) : List Py → Bool
  | [] => false
  | x :: xs => Py.containsVal needle x || Py.containsValList needle xs

def Py.containsValDict (needle : Py) : List (String × Py) → Bool
  | [] => false
  | (_, v) :: kvs => Py.containsVal needle v || Py.containsValDict needle kvs
end

/-- The platform identifiers a request body embeds, read from the
designated id slots the chain uses: `campaign_id` (ad-set request),
`adset_id` and `creative.creative_id` (ad request). -/
def Request.embeddedIds (r : Request) : List Py :=
  (Py.lookupKey r.body "campaign_id").toList ++
    (Py.lookupKey r.body "adset_id").toList ++
    ((Py.lookupKey r.body "creative").bind (fun c => Py.lookupKey c "creative_id")).toList

/-- The campaign request a pipeline run posts. -/
def pipelineReq1 (inp : PipelineInput) : Request :=
  campaignRequest inp.access_token inp.ad_account_id inp.details.campaign_name
    inp.details.campaign_objective "PAUSED"

/-- The ad-set request a pipeline run posts, given the returned campaign id. -/
def pipelineReq2 (inp : PipelineInput) (campaign_id : Py) : Request :=
  adSetRequest inp.access_token inp.ad_account_id
    (inp.details.campaign_name ++ " - Ad Set") campaign_id inp.details.daily_budget
    (pipelineTargeting inp.details) "PAUSED" inp.now

/-- The creative request a pipeline run posts (no prior id appears in it). -/
def pipelineReq3 (inp : PipelineInput) : Request :=
  creativeRequest inp.access_token inp.ad_account_id (pipelineCreativeData inp)

/-- The ad request a pipeline run posts, given the returned ad-set and
creative ids. -/
def pipelineReq4 (inp : PipelineInput) (ad_set_id creative_id : Py) : Request :=
  adRequest inp.access_token inp.ad_account_id (inp.details.campaign_name ++ " - Ad")
    ad_set_id creative_id "PAUSED"

/-- Complete characterization of a pipeline run (for a non-empty page id,
which the button handler's guard ensures before the flow starts): the
requests issued, in order, and the result, by cases on the outcome of each
step. -/
theorem runPipeline_characterization (oracle : Request → HttpOutcome)
    (inp : PipelineInput) (hpage : inp.page_id ≠ "") :
    runPipeline oracle inp =
      match postCall oracle "Failed to create campaign" (pipelineReq1 inp) with
      | .error e => ([pipelineReq1 inp], .error e)
      | .ok cid =>
        match postCall oracle "Failed to create ad set" (pipelineReq2 inp cid) with
        | .error e => ([pipelineReq1 inp, pipelineReq2 inp cid], .error e)
        | .ok asid =>
          match postCall oracle "Failed to create ad creative" (pipelineReq3 inp) with
          | .error e =>
            ([pipelineReq1 inp, pipelineReq2 inp cid, pipelineReq3 inp], .error e)
          | .ok crid =>
            match postCall oracle "Failed to create ad" (pipelineReq4 inp asid crid) with
            | .error e =>
              ([pipelineReq1 inp, pipelineReq2 inp cid, pipelineReq3 inp,
                pipelineReq4 inp asid crid], .error e)
            | .ok aid =>
              ([pipelineReq1 inp, pipelineReq2 inp cid, pipelineReq3 inp,
                pipelineReq4 inp asid crid], .ok ⟨cid, asid, aid⟩) := by
  have hpg : Py.truthy ((assocFind (pipelineCreativeData inp) "page_id").getD (.pstr "")) = true := by
    simp [pipelineCreativeData, assocFind, Py.truthy, hpage]
  cases h1 : postCall oracle "Failed to create campaign"
      (campaignRequest inp.access_token inp.ad_account_id inp.details.campaign_name
        inp.details.campaign_objective "PAUSED") with
  | error e => simp [runPipeline, create_campaign, pipelineReq1, h1]
  | ok cid =>
    cases h2 : postCall oracle "Failed to create ad set"
        (adSetRequest inp.access_token inp.ad_account_id
          (inp.details.campaign_name ++ " - Ad Set") cid inp.details.daily_budget
          (pipelineTargeting inp.details) "PAUSED" inp.now) with
    | error e =>
      simp [runPipeline, create_campaign, create_ad_set, pipelineReq1, pipelineReq2, h1, h2]
    | ok asid =>
      cases h3 : postCall oracle "Failed to create ad creative"
          (creativeRequest inp.access_token inp.ad_account_id (pipelineCreativeData inp)) with
      | error e =>
        simp [runPipeline, create_campaign, create_ad_set, create_ad, create_ad_creative,
          pipelineReq1, pipelineReq2, pipelineReq3, h1, h2, h3, hpg]
      | ok crid =>
        cases h4 : postCall oracle "Failed to create ad"
            (adRequest inp.access_token inp.ad_account_id
              (inp.details.campaign_name ++ " - Ad") asid crid "PAUSED") with
        | error e =>
          simp [runPipeline, create_campaign, create_ad_set, create_ad, create_ad_creative,
            pipelineReq1, pipelineReq2, pipelineReq3, pipelineReq4, h1, h2, h3, h4, hpg]
        | ok aid =>
          simp [runPipeline, create_campaign, create_ad_set, create_ad, create_ad_creative,
            pipelineReq1, pipelineReq2, pipelineReq3, pipelineReq4, h1, h2, h3, h4, hpg]

/-! ## Claim theorems -/

/-- A response body carrying the platform's structured error object with
user-facing message `m`. -/
def structuredErrorBody (m : String) : Py :=
  .pdict [("error", .pdict [("error_user_msg", .pstr m)])]

/-- C2.  Error composition of the write/read operations.  When the
response body carries a structured error object, each of the five
operations surfaces exactly
`"\x7boperation failed\x7d - \x7buser message\x7d\n\nError Detail:\n\x7btransport error text\x7d"`
— and the raw response body is never appended, because `bool(e.response)`
is false for every non-2xx response.  When the body carries no structured
error object the handler raises `AttributeError` (calling `.get` on the
default string `'Unknown Error'`), and when no response was received at
all it raises `UnboundLocalError` (`response` never assigned) — in neither
case is a generic transport-error message surfaced, contradicting the
claim's fallback clause. -/
theorem c2_error_composition_bug (tok acct nm obj stt m excText raw : String)
    (cid asid tgt : Py) :
    (create_campaign (fun _ => .httpError 400 excText (some (structuredErrorBody m)) raw)
      tok acct nm obj stt).2 =
      .error (.exception ("Failed to create campaign" ++ " - " ++ m ++
        "\n\nError Detail:\n" ++ excText)) ∧
    (create_ad_set (fun _ => .httpError 400 excText (some (structuredErrorBody m)) raw)
      tok acct nm cid 85 tgt stt 0).2 =
      .error (.exception ("Failed to create ad set" ++ " - " ++ m ++
        "\n\nError Detail:\n" ++ excText)) ∧
    (create_ad_creative (fun _ => .httpError 400 excText (some (structuredErrorBody m)) raw)
      tok acct [("page_id", .pstr "P")]).2 =
      .error (.exception ("Failed to create ad creative" ++ " - " ++ m ++
        "\n\nError Detail:\n" ++ excText)) ∧
    (create_ad (fun r => if r.endpoint = .ads then
        .httpError 400 excText (some (structuredErrorBody m)) raw
      else .ok (.pdict [("id", .pstr "CR_1")]))
      tok acct nm asid [("page_id", .pstr "P")] stt).2 =
      .error (.exception ("Failed to create ad" ++ " - " ++ m ++
        "\n\nError Detail:\n" ++ excText)) ∧
    get_campaign_details (.httpError 400 excText (some (structuredErrorBody m)) raw) =
      .error (.exception ("Failed to get campaign details" ++ " - " ++ m ++
        "\n\nError Detail:\n" ++ excText)) ∧
    (create_campaign (fun _ => .httpError 400 excText (some (.pdict [])) raw)
      tok acct nm obj stt).2 = .error .attributeError ∧
    (create_campaign (fun _ => .raised excText) tok acct nm obj stt).2 =
      .error .unboundLocal :=
  ⟨rfl, rfl, rfl, rfl, rfl, rfl, rfl⟩

/-- C3.  `check_api_access` returns a result pair on every outcome that
carries a response: success with the connected name, the invalid-token
message on a 401, a generic connection-error message on any other HTTP
failure.  But on a transport failure with no response (e.g. a connection
error) the handler reads `response.status_code` with `response` never
assigned, raising `UnboundLocalError` past the boundary — so the function
is not total as claimed. -/
theorem c3_check_api_access_boundary (excText n : String) :
    check_api_access (.ok (.pdict [("name", .pstr n)])) = .ok (true, "Connected as " ++ n) ∧
    check_api_access (.httpError 401 excText none "") = .ok (false, "Invalid access token") ∧
    check_api_access (.httpError 500 excText none "") =
      .ok (false, "API connection error: " ++ excText) ∧
    check_api_access (.raised excText) = .error .unboundLocal :=
  ⟨rfl, rfl, rfl, rfl⟩

/-- C4 counterexample.  A mapping holding the four required keys *plus an
extra key* — its key set differs from the required four — is accepted by
`validate_content`, refuting "accepts if and only if it contains exactly
the four keys". -/
theorem c4_extra_key_accepted :
    validate_content [("headline", .pstr "h"), ("primary_text", .pstr "p"),
      ("description", .pstr "d"), ("image_description", .pstr "i"),
      ("extra_key", .pstr "x")] = .ok () := rfl

/-- C4 (amended).  `validate_content` accepts a mapping iff all four keys
`headline`, `primary_text`, `description`, `image_description` are
present; a mapping missing one of them is rejected (with a `ValueError`,
locally, before any platform request — the function involves no oracle);
extra keys are not rejected. -/
theorem c4_validate_content_iff (content : List (String × Py)) :
    validate_content content = .ok () ↔
      ((assocFind content "headline").isSome ∧
       (assocFind content "primary_text").isSome ∧
       (assocFind content "description").isSome ∧
       (assocFind content "image_description").isSome) := by
  simp only [validate_content, required_fields, validateFields]
  by_cases h₁ : (assocFind content "headline").isSome <;>
    by_cases h₂ : (assocFind content "primary_text").isSome <;>
    by_cases h₃ : (assocFind content "description").isSome <;>
    by_cases h₄ : (assocFind content "image_description").isSome <;>
    simp_all [Option.isNone_iff_eq_none, Option.isSome_iff_ne_none]

/-- C4 witness: the amended theorem applied to a mapping with exactly the
four keys. -/
theorem c4_validate_content_iff_witness :
    validate_content [("headline", .pstr "h"), ("primary_text", .pstr "p"),
      ("description", .pstr "d"), ("image_description", .pstr "i")] = .ok () :=
  (c4_validate_content_iff _).mpr ⟨rfl, rfl, rfl, rfl⟩

/-- C8.  The objective submitted by `create_campaign` follows the fixed
mapping: AWARENESS ↦ BRAND_AWARENESS, CONSIDERATION ↦ OUTCOME_TRAFFIC,
CONVERSIONS ↦ CONVERSIONS, and every other input ↦ OUTCOME_TRAFFIC. -/
theorem c8_campaign_objective_mapping (oracle : Request → HttpOutcome)
    (tok acct nm obj stt : String) :
    Py.lookupKey ((create_campaign oracle tok acct nm obj stt).1.getD 0 dummyRequest).body
        "objective" =
      some (.pstr (if obj = "AWARENESS" then "BRAND_AWARENESS"
        else if obj = "CONSIDERATION" then "OUTCOME_TRAFFIC"
        else if obj = "CONVERSIONS" then "CONVERSIONS"
        else "OUTCOME_TRAFFIC")) := by
  have hmap : (assocFind objective_mapping obj).getD "OUTCOME_TRAFFIC" =
      (if obj = "AWARENESS" then "BRAND_AWARENESS"
        else if obj = "CONSIDERATION" then "OUTCOME_TRAFFIC"
        else if obj = "CONVERSIONS" then "CONVERSIONS"
        else "OUTCOME_TRAFFIC") := by
    simp only [objective_mapping, assocFind]
    by_cases h₁ : obj = "AWARENESS" <;> by_cases h₂ : obj = "CONSIDERATION" <;>
      by_cases h₃ : obj = "CONVERSIONS" <;>
      simp [h₁, h₂, h₃, eq_comm]
  show Py.lookupKey (campaignRequest tok acct nm obj stt).body "objective" = _
  rw [← hmap]
  rfl

/-- C10.  For any `creative_data` with a truthy `page_id` and no
`call_to_action` key, `create_ad_creative` issues exactly one request and
its body's `object_story_spec.link_data.call_to_action.type` equals
`"LEARN_MORE"`: the call-to-action silently defaults instead of failing
validation or being omitted. -/
theorem c10_cta_defaults_learn_more (oracle : Request → HttpOutcome) (tok acct : String)
    (cd : List (String × Py))
    (hcta : assocFind cd "call_to_action" = none)
    (hpage : Py.truthy ((assocFind cd "page_id").getD (.pstr "")) = true) :
    (create_ad_creative oracle tok acct cd).1 = [creativeRequest tok acct cd] ∧
    ((((Py.lookupKey (creativeRequest tok acct cd).body "object_story_spec").bind
        (fun o => Py.lookupKey o "link_data")).bind
        (fun l => Py.lookupKey l "call_to_action")).bind
        (fun c => Py.lookupKey c "type")) = some (.pstr "LEARN_MORE") := by
  constructor
  · simp [create_ad_creative, hpage]
  · simp [creativeRequest, Py.lookupKey, assocFind, hcta]

/-- C10 witness: concrete creative data with only a page id. -/
theorem c10_cta_defaults_learn_more_witness :
    (create_ad_creative (fun _ => .ok (.pdict [("id", .pstr "CR")])) "TOK" "act_10"
      [("page_id", .pstr "PG")]).1 = [creativeRequest "TOK" "act_10" [("page_id", .pstr "PG")]] ∧
    ((((Py.lookupKey (creativeRequest "TOK" "act_10" [("page_id", .pstr "PG")]).body
        "object_story_spec").bind
        (fun o => Py.lookupKey o "link_data")).bind
        (fun l => Py.lookupKey l "call_to_action")).bind
        (fun c => Py.lookupKey c "type")) = some (.pstr "LEARN_MORE") :=
  c10_cta_defaults_learn_more (fun _ => .ok (.pdict [("id", .pstr "CR")])) "TOK" "act_10"
    [("page_id", .pstr "PG")] rfl rfl

/-- C6.  `create_ad` is a two-call composite: when the creative call
succeeds it issues exactly the creative request followed by the ad
request referencing the returned creative id, and its result is the ad
call's result; when the creative call fails, only the creative request was
issued.  When the ad write fails after the creative write succeeded, the
successful writes of the whole composite are exactly the creative — and
the trace shows no further (compensating) request of any kind. -/
theorem c6_create_ad_composite (oracle : Request → HttpOutcome)
    (tok acct nm stt : String) (asid : Py) (cd : List (String × Py))
    (hpage : Py.truthy ((assocFind cd "page_id").getD (.pstr "")) = true) :
    (∀ crid, postCall oracle "Failed to create ad creative" (creativeRequest tok acct cd) = .ok crid →
      create_ad oracle tok acct nm asid cd stt =
        ([creativeRequest tok acct cd, adRequest tok acct nm asid crid stt],
         postCall oracle "Failed to create ad" (adRequest tok acct nm asid crid stt))) ∧
    (∀ e, postCall oracle "Failed to create ad creative" (creativeRequest tok acct cd) = .error e →
      create_ad oracle tok acct nm asid cd stt = ([creativeRequest tok acct cd], .error e)) ∧
    (∀ crid, postCall oracle "Failed to create ad creative" (creativeRequest tok acct cd) = .ok crid →
      ∀ failSt excT jb raw,
        oracle (adRequest tok acct nm asid crid stt) = .httpError failSt excT jb raw →
        ((create_ad oracle tok acct nm asid cd stt).1.filter
          (fun r => (oracle r).succeeded)) = [creativeRequest tok acct cd] ∧
        (create_ad oracle tok acct nm asid cd stt).2 =
          .error (exceptHandler "Failed to create ad" failSt excT jb raw)) := by
  refine ⟨?_, ?_, ?_⟩
  · intro crid h
    simp [create_ad, create_ad_creative, hpage, h]
  · intro e h
    simp [create_ad, create_ad_creative, hpage, h]
  · intro crid h failSt excT jb raw hAd
    cases ho : oracle (creativeRequest tok acct cd) with
    | ok body =>
      have h' : pyDictGet body "id" Py.pnone = .ok crid := by
        simpa [postCall, ho] using h
      constructor
      · simp [create_ad, create_ad_creative, hpage, h, List.filter, ho, hAd,
          HttpOutcome.succeeded]
      · simp [create_ad, create_ad_creative, hpage, postCall, ho, h', hAd]
    | httpError st et j r => simp [postCall, ho] at h
    | raised et => simp [postCall, ho] at h

/-- Oracle for the C6 witness: the creative write succeeds. -/
def c6Oracle : Request → HttpOutcome := fun _ => .ok (.pdict [("id", .pstr "CR_6")])

/-- C6 witness: the success case at concrete inputs — exactly two writes,
the creative first, the ad embedding the returned creative id. -/
theorem c6_create_ad_composite_witness :
    create_ad c6Oracle "TOK" "act_6" "Acme - Ad" (.pstr "AS_6")
      [("page_id", .pstr "PG_6")] "PAUSED" =
      ([creativeRequest "TOK" "act_6" [("page_id", .pstr "PG_6")],
        adRequest "TOK" "act_6" "Acme - Ad" (.pstr "AS_6") (.pstr "CR_6") "PAUSED"],
       postCall c6Oracle "Failed to create ad"
         (adRequest "TOK" "act_6" "Acme - Ad" (.pstr "AS_6") (.pstr "CR_6") "PAUSED")) :=
  (c6_create_ad_composite c6Oracle "TOK" "act_6" "Acme - Ad" "PAUSED" (.pstr "AS_6")
    [("page_id", .pstr "PG_6")] rfl).1 (.pstr "CR_6") rfl

/-- C1 (amended).  Complete ordering/threading/abort contract of one
pipeline run (page id non-empty, as the button handler's guard ensures):
the requests are issued in the fixed order campaign → ad set → creative →
ad; the ad-set request embeds the campaign call's returned identifier and
the ad request embeds both the ad-set call's and the creative call's
returned identifiers (the creative request embeds no prior identifier);
on the first failing step the pipeline aborts with exactly the requests
issued so far — no creation request after the failing one is ever
issued. -/
theorem c1_pipeline_order_and_abort (oracle : Request → HttpOutcome)
    (inp : PipelineInput) (hpage : inp.page_id ≠ "") :
    (∀ e, postCall oracle "Failed to create campaign" (pipelineReq1 inp) = .error e →
      runPipeline oracle inp = ([pipelineReq1 inp], .error e)) ∧
    (∀ cid, postCall oracle "Failed to create campaign" (pipelineReq1 inp) = .ok cid →
      Py.lookupKey (pipelineReq2 inp cid).body "campaign_id" = some cid ∧
      (∀ e, postCall oracle "Failed to create ad set" (pipelineReq2 inp cid) = .error e →
        runPipeline oracle inp = ([pipelineReq1 inp, pipelineReq2 inp cid], .error e)) ∧
      (∀ asid, postCall oracle "Failed to create ad set" (pipelineReq2 inp cid) = .ok asid →
        (∀ e, postCall oracle "Failed to create ad creative" (pipelineReq3 inp) = .error e →
          runPipeline oracle inp =
            ([pipelineReq1 inp, pipelineReq2 inp cid, pipelineReq3 inp], .error e)) ∧
        (∀ crid, postCall oracle "Failed to create ad creative" (pipelineReq3 inp) = .ok crid →
          Py.lookupKey (pipelineReq4 inp asid crid).body "adset_id" = some asid ∧
          Py.lookupKey (pipelineReq4 inp asid crid).body "creative" =
            some (.pdict [("creative_id", crid)]) ∧
          (∀ e, postCall oracle "Failed to create ad" (pipelineReq4 inp asid crid) = .error e →
            runPipeline oracle inp =
              ([pipelineReq1 inp, pipelineReq2 inp cid, pipelineReq3 inp,
                pipelineReq4 inp asid crid], .error e)) ∧
          (∀ aid, postCall oracle "Failed to create ad" (pipelineReq4 inp asid crid) = .ok aid →
            runPipeline oracle inp =
              ([pipelineReq1 inp, pipelineReq2 inp cid, pipelineReq3 inp,
                pipelineReq4 inp asid crid], .ok ⟨cid, asid, aid⟩))))) := by
  have hc := runPipeline_characterization oracle inp hpage
  refine ⟨?_, ?_⟩
  · intro e h
    rw [hc]
    simp only [h]
  · intro cid h1
    refine ⟨?_, ?_, ?_⟩
    · simp [pipelineReq2, adSetRequest, Py.lookupKey, assocFind]
    · intro e h2
      rw [hc]
      simp only [h1, h2]
    · intro asid h2
      refine ⟨?_, ?_⟩
      · intro e h3
        rw [hc]
        simp only [h1, h2, h3]
      · intro crid h3
        refine ⟨?_, ?_, ?_, ?_⟩
        · simp [pipelineReq4, adRequest, Py.lookupKey, assocFind]
        · simp [pipelineReq4, adRequest, Py.lookupKey, assocFind]
        · intro e h4
          rw [hc]
          simp only [h1, h2, h3, h4]
        · intro aid h4
          rw [hc]
          simp only [h1, h2, h3, h4]

/-- Oracle for the C1 concrete run: every write succeeds with a distinct
platform id. -/
def c1Oracle : Request → HttpOutcome := fun r =>
  match r.endpoint with
  | .campaigns => .ok (.pdict [("id", .pstr "CAMP_1")])
  | .adsets => .ok (.pdict [("id", .pstr "ADSET_1")])
  | .adcreatives => .ok (.pdict [("id", .pstr "CREATIVE_1")])
  | .ads => .ok (.pdict [("id", .pstr "AD_1")])

/-- Concrete pipeline input for the C1 run. -/
def c1Inp : PipelineInput :=
  { access_token := "TOK", page_id := "PAGE_1", ad_account_id := "act_1",
    details := { campaign_name := "Acme Campaign", campaign_objective := "CONSIDERATION",
                 daily_budget := 85, website_url := "https://acme.example",
                 call_to_action := "LEARN_MORE", age_min := 25, age_max := 45,
                 genders := "ALL", locations := ["US", "IN"] },
    content := { headline := "H", primary_text := "P", description := "D",
                 image_description := "I" },
    now := 1700000000 }

/-- C1 counterexample.  In a fully successful concrete run the four
requests are issued in order, yet the third (creative) request embeds no
identifier slot at all and the ad-set call's returned id `"ADSET_1"`
occurs nowhere in its body — refuting "each later request embedding the
identifier returned by the prior call" for the ad set → creative pair. -/
theorem c1_creative_embeds_no_prior_id :
    ((runPipeline c1Oracle c1Inp).1.map Request.endpoint =
      [.campaigns, .adsets, .adcreatives, .ads]) ∧
    (runPipeline c1Oracle c1Inp).2 =
      .ok ⟨.pstr "CAMP_1", .pstr "ADSET_1", .pstr "AD_1"⟩ ∧
    Request.embeddedIds ((runPipeline c1Oracle c1Inp).1.getD 2 dummyRequest) = [] ∧
    Py.containsVal (.pstr "ADSET_1")
      ((runPipeline c1Oracle c1Inp).1.getD 2 dummyRequest).body = false := by
  refine ⟨rfl, rfl, rfl, ?_⟩
  show Py.containsVal (.pstr "ADSET_1") (pipelineReq3 c1Inp).body = false
  simp [pipelineReq3, creativeRequest, pipelineCreativeData, c1Inp, assocFind, Py.fstr,
    Py.containsVal, Py.containsValList, Py.containsValDict, Py.beq, Py.beqList, Py.beqDict]

/-- C1 witness: the all-success case of the amended theorem at the
concrete run. -/
theorem c1_pipeline_order_and_abort_witness :
    runPipeline c1Oracle c1Inp =
      ([pipelineReq1 c1Inp, pipelineReq2 c1Inp (.pstr "CAMP_1"), pipelineReq3 c1Inp,
        pipelineReq4 c1Inp (.pstr "ADSET_1") (.pstr "CREATIVE_1")],
       .ok ⟨.pstr "CAMP_1", .pstr "ADSET_1", .pstr "AD_1"⟩) :=
  (((((c1_pipeline_order_and_abort c1Oracle c1Inp (by decide)).2
      (.pstr "CAMP_1") rfl).2.2 (.pstr "ADSET_1") rfl).2
      (.pstr "CREATIVE_1") rfl).2.2.2 (.pstr "AD_1") rfl)

/-- C5 (amended).  In every pipeline run (page id non-empty), every
issued request that carries a `status` field carries `"PAUSED"`; the only
request without a `status` field is the creative one.  In particular the
campaign, ad-set and ad requests all submit status `"PAUSED"`. -/
theorem c5_status_paused (oracle : Request → HttpOutcome)
    (inp : PipelineInput) (hpage : inp.page_id ≠ "") :
    ∀ r ∈ (runPipeline oracle inp).1,
      Py.lookupKey r.body "status" =
        (if r.endpoint = .adcreatives then none else some (.pstr "PAUSED")) := by
  intro r hr
  rw [runPipeline_characterization oracle inp hpage] at hr
  cases h1 : postCall oracle "Failed to create campaign" (pipelineReq1 inp) with
  | error e =>
    simp only [h1] at hr
    simp only [List.mem_singleton] at hr
    subst hr
    simp [pipelineReq1, campaignRequest, Py.lookupKey, assocFind]
  | ok cid =>
    simp only [h1] at hr
    cases h2 : postCall oracle "Failed to create ad set" (pipelineReq2 inp cid) with
    | error e =>
      simp only [h2] at hr
      simp only [List.mem_cons, List.mem_singleton, List.not_mem_nil, or_false] at hr
      rcases hr with rfl | rfl
      · simp [pipelineReq1, campaignRequest, Py.lookupKey, assocFind]
      · simp [pipelineReq2, adSetRequest, Py.lookupKey, assocFind]
    | ok asid =>
      simp only [h2] at hr
      cases h3 : postCall oracle "Failed to create ad creative" (pipelineReq3 inp) with
      | error e =>
        simp only [h3] at hr
        simp only [List.mem_cons, List.not_mem_nil, or_false] at hr
        rcases hr with rfl | rfl | rfl
        · simp [pipelineReq1, campaignRequest, Py.lookupKey, assocFind]
        · simp [pipelineReq2, adSetRequest, Py.lookupKey, assocFind]
        · simp [pipelineReq3, creativeRequest, Py.lookupKey, assocFind]
      | ok crid =>
        simp only [h3] at hr
        cases h4 : postCall oracle "Failed to create ad" (pipelineReq4 inp asid crid) with
        | error e =>
          simp only [h4] at hr
          simp only [List.mem_cons, List.not_mem_nil, or_false] at hr
          rcases hr with rfl | rfl | rfl | rfl
          · simp [pipelineReq1, campaignRequest, Py.lookupKey, assocFind]
          · simp [pipelineReq2, adSetRequest, Py.lookupKey, assocFind]
          · simp [pipelineReq3, creativeRequest, Py.lookupKey, assocFind]
          · simp [pipelineReq4, adRequest, Py.lookupKey, assocFind]
        | ok aid =>
          simp only [h4] at hr
          simp only [List.mem_cons, List.not_mem_nil, or_false] at hr
          rcases hr with rfl | rfl | rfl | rfl
          · simp [pipelineReq1, campaignRequest, Py.lookupKey, assocFind]
          · simp [pipelineReq2, adSetRequest, Py.lookupKey, assocFind]
          · simp [pipelineReq3, creativeRequest, Py.lookupKey, assocFind]
          · simp [pipelineReq4, adRequest, Py.lookupKey, assocFind]

/-- Oracle for the C5 concrete run: every write succeeds. -/
def c5Oracle : Request → HttpOutcome := fun r =>
  match r.endpoint with
  | .campaigns => .ok (.pdict [("id", .pstr "CAMP_5")])
  | .adsets => .ok (.pdict [("id", .pstr "ADSET_5")])
  | .adcreatives => .ok (.pdict [("id", .pstr "CREATIVE_5")])
  | .ads => .ok (.pdict [("id", .pstr "AD_5")])

/-- Concrete pipeline input for the C5 run. -/
def c5Inp : PipelineInput :=
  { access_token := "TOK5", page_id := "PAGE_5", ad_account_id := "act_5",
    details := { campaign_name := "Beta Campaign", campaign_objective := "AWARENESS",
                 daily_budget := 100, website_url := "https://beta.example",
                 call_to_action := "SIGN_UP", age_min := 18, age_max := 65,
                 genders := "FEMALE", locations := ["DE"] },
    content := { headline := "BH", primary_text := "BP", description := "BD",
                 image_description := "BI" },
    now := 1710000000 }

/-- C5 counterexample.  In a fully successful concrete run, the third
issued creation request (the creative) carries no `status` field at all —
refuting "every creation request the pipeline submits carries status
PAUSED" when read over all four creation requests. -/
theorem c5_creative_request_has_no_status :
    (runPipeline c5Oracle c5Inp).2 =
      .ok ⟨.pstr "CAMP_5", .pstr "ADSET_5", .pstr "AD_5"⟩ ∧
    ((runPipeline c5Oracle c5Inp).1.getD 2 dummyRequest).endpoint = .adcreatives ∧
    Py.lookupKey ((runPipeline c5Oracle c5Inp).1.getD 2 dummyRequest).body "status" = none :=
  ⟨rfl, rfl, rfl⟩

/-- C5 witness: the amended theorem applied to the campaign request of
the concrete run. -/
theorem c5_status_paused_witness :
    Py.lookupKey (pipelineReq1 c5Inp).body "status" =
      (if (pipelineReq1 c5Inp).endpoint = .adcreatives then none
       else some (.pstr "PAUSED")) :=
  c5_status_paused c5Oracle c5Inp (by decide) (pipelineReq1 c5Inp)
    (by rw [show (runPipeline c5Oracle c5Inp).1 =
          pipelineReq1 c5Inp :: [pipelineReq2 c5Inp (.pstr "CAMP_5"), pipelineReq3 c5Inp,
            pipelineReq4 c5Inp (.pstr "ADSET_5") (.pstr "CREATIVE_5")] from rfl]
        exact List.mem_cons_self _ _)

/-- Auxiliary: looking a key up in an appended association list whose left
part does not bind it. -/
lemma assocFind_append_left_none {α : Type} {l₁ : List (String × α)}
    (l₂ : List (String × α)) (k : String) (h : assocFind l₁ k = none) :
    assocFind (l₁ ++ l₂) k = assocFind l₂ k := by
  induction l₁ with
  | nil => simp
  | cons kv rest ih =>
    obtain ⟨k', v⟩ := kv
    by_cases hc : k' = k
    · simp only [assocFind] at h
      rw [if_pos hc] at h
      simp at h
    · simp only [assocFind] at h
      rw [if_neg hc] at h
      rw [List.cons_append]
      simp only [assocFind]
      rw [if_neg hc]
      exact ih h

/-- Auxiliary: the age/gender prefix of the targeting spec binds none of
the other keys. -/
lemma ageGenderSpec_find_none (td : List (String × Py)) (k : String)
    (h₁ : k ≠ "age_min") (h₂ : k ≠ "age_max") (h₃ : k ≠ "genders") :
    assocFind (ageGenderSpec td) k = none := by
  have h₁' := Ne.symm h₁
  have h₂' := Ne.symm h₂
  have h₃' := Ne.symm h₃
  simp only [ageGenderSpec]
  repeat' split
  all_goals simp_all [assocFind]

/-- Auxiliary: on a list of strings, the length-two check evaluates to
`List.all` and raises nothing. -/
lemma allLenTwo_pstr (locs : List String) :
    allLenTwo (locs.map Py.pstr) = .ok (locs.all (fun s => s.length == 2)) := by
  induction locs with
  | nil => rfl
  | cons s rest ih =>
    simp only [List.map_cons, allLenTwo, pyLen, List.all_cons]
    by_cases h : s.length = 2
    · simp [h, ih]
    · have h' : ¬((s.length : Int) = 2) := by exact_mod_cast h
      simp [h, h']

/-- Auxiliary: the trailing interests block preserves the geo entry. -/
lemma withInterests_geo (td base : List (String × Py)) (G : Py)
    (hbase : assocFind base "geo_locations" = none)
    (hint : ∀ xs, assocFind td "interests" = some (.plist xs) →
      ∃ ys, mapInterests xs = .ok ys) :
    ∃ spec, withInterests td (base ++ [("geo_locations", G)]) = .ok spec ∧
      assocFind spec "geo_locations" = some G := by
  have hfind : assocFind (base ++ [("geo_locations", G)]) "geo_locations" = some G := by
    rw [assocFind_append_left_none _ _ hbase]; simp [assocFind]
  rcases hi : assocFind td "interests" with _ | v
  · exact ⟨base ++ [("geo_locations", G)], by simp [withInterests, hi], hfind⟩
  · cases v with
    | plist xs =>
      obtain ⟨ys, hys⟩ := hint xs hi
      refine ⟨(base ++ [("geo_locations", G)]) ++ [("interests", .plist ys)], ?_, ?_⟩
      · simp [withInterests, hi, hys]
      · rw [List.append_assoc, assocFind_append_left_none _ _ hbase]
        simp [assocFind]
    | pnone => exact ⟨base ++ [("geo_locations", G)], by simp [withInterests, hi], hfind⟩
    | pbool b => exact ⟨base ++ [("geo_locations", G)], by simp [withInterests, hi], hfind⟩
    | pint n => exact ⟨base ++ [("geo_locations", G)], by simp [withInterests, hi], hfind⟩
    | pstr s => exact ⟨base ++ [("geo_locations", G)], by simp [withInterests, hi], hfind⟩
    | pdict kvs => exact ⟨base ++ [("geo_locations", G)], by simp [withInterests, hi], hfind⟩

/-- C9.  For every targeting input without a `geo_locations` key but with
a non-empty flat `locations` list of strings (and interests, when
present, a well-formed pair list — the unrelated interests block is the
only other part that can raise): the formatter succeeds, and the output's
`geo_locations.countries` equals the locations list unchanged when every
entry has length exactly two, and the empty list otherwise — silent
degradation, never a raised error. -/
theorem c9_targeting_locations (td : List (String × Py)) (locs : List String)
    (hgeo : assocFind td "geo_locations" = none)
    (hloc : assocFind td "locations" = some (.plist (locs.map Py.pstr)))
    (hne : locs ≠ [])
    (hint : ∀ xs, assocFind td "interests" = some (.plist xs) →
      ∃ ys, mapInterests xs = .ok ys) :
    ∃ spec, format_targeting_spec td = .ok spec ∧
      assocFind spec "geo_locations" = some (.pdict
        [("countries", if locs.all (fun s => s.length == 2)
            then Py.plist (locs.map Py.pstr) else Py.plist []),
         ("cities", .plist []), ("regions", .plist [])]) := by
  have hlen : 0 < (locs.map Py.pstr).length := by
    simpa using List.length_pos.mpr hne
  simp only [format_targeting_spec, hgeo, hloc]
  rw [if_pos hlen]
  simp only [allLenTwo_pstr]
  exact withInterests_geo td (ageGenderSpec td) _
    (ageGenderSpec_find_none td _ (by decide) (by decide) (by decide)) hint

/-- C9 witness: the two-letter case `["US", "IN"]` passes through
unchanged. -/
theorem c9_targeting_locations_witness :
    ∃ spec, format_targeting_spec [("locations", .plist [.pstr "US", .pstr "IN"])] = .ok spec ∧
      assocFind spec "geo_locations" = some (.pdict
        [("countries", Py.plist [.pstr "US", .pstr "IN"]),
         ("cities", .plist []), ("regions", .plist [])]) := by
  have hall : (["US", "IN"].all fun s => s.length == 2) = true := by decide
  have h := c9_targeting_locations [("locations", .plist [.pstr "US", .pstr "IN"])]
    ["US", "IN"] rfl rfl (by decide) (by intro xs hxs; simp [assocFind] at hxs)
  simpa [hall] using h

end AdsPipeline
